import Mathlib

/-!
Shallow embedding of the monophonic instrument stack of this repository:
Tone.Instrument (src/Tone/instrument/Instrument.js), Tone.Monophonic
(src/unnamed/part_000) and Tone.DuoSynth (src/Tone/instrument/DuoSynth.js).
The external collaborators that are not under src (Tone.Signal,
Tone.MonoSynth, Tone.LFO, Tone.Multiply, the Web Audio graph and the
rendering clock) are modelled from the specification: scheduled scalar
parameters accept timestamped value and ramp instructions appended to a
per-parameter automation log, and processing nodes form a directed graph
in which a parameter sums what drives it. Times, frequencies, volumes and
gains are rationals; an optional argument is an Option; a missing (null)
reference is none, and an operation that would dereference null returns
none.
-/

namespace Tone

/-- Modelled from the spec: the external rendering clock collaborator
resolves a time argument to absolute seconds. An absent argument means
now, and a numeric argument is already absolute seconds, so resolving an
already resolved time is the identity. -/
def toSeconds (now : ℚ) (time : Option ℚ) : ℚ :=
  match time with
  | none => now
  | some t => t

/-- Modelled from the spec: one timestamped instruction on the automation
curve of a scheduled scalar parameter. The collaborator offers discrete
set points, linear ramps and exponential ramps. -/
inductive AutomationEvent where
  | setValueAtTime (value : ℚ) (time : ℚ)
  | linearRampToValueAtTime (value : ℚ) (time : ℚ)
  | exponentialRampToValueAtTime (value : ℚ) (time : ℚ)
deriving DecidableEq, Repr

/-- Timestamp of an automation instruction. -/
def AutomationEvent.time : AutomationEvent → ℚ
  | AutomationEvent.setValueAtTime _ t => t
  | AutomationEvent.linearRampToValueAtTime _ t => t
  | AutomationEvent.exponentialRampToValueAtTime _ t => t

/-- Target value of an automation instruction. -/
def AutomationEvent.value : AutomationEvent → ℚ
  | AutomationEvent.setValueAtTime v _ => v
  | AutomationEvent.linearRampToValueAtTime v _ => v
  | AutomationEvent.exponentialRampToValueAtTime v _ => v

/-- Modelled from the spec: Tone.Signal, an owned scalar automation
parameter with an intrinsic starting value and an append-only log of
scheduled instructions. -/
structure Signal where
  initialValue : ℚ
  events : List AutomationEvent
deriving DecidableEq, Repr

/-- Append a discrete set point, as AudioParam.setValueAtTime does. -/
def Signal.setValueAtTime (s : Signal) (v t : ℚ) : Signal :=
  ⟨s.initialValue, s.events ++ [AutomationEvent.setValueAtTime v t]⟩

/-- Append an exponential ramp instruction, as
AudioParam.exponentialRampToValueAtTime does. -/
def Signal.exponentialRampToValueAtTime (s : Signal) (v t : ℚ) : Signal :=
  ⟨s.initialValue, s.events ++ [AutomationEvent.exponentialRampToValueAtTime v t]⟩

/-- Modelled from the spec: the current value of a parameter, read by the
value getter. The spec defines the current note as the last value
scheduled on the parameter, with overlapping points resolved by timestamp
order, so the current value is the value of the latest instruction whose
timestamp is at or before now (a later insertion wins a tie) and the
intrinsic value when nothing qualifies. The interior of a pending ramp is
abstracted to the ramp target at its landing time. -/
def Signal.getValue (s : Signal) (now : ℚ) : ℚ :=
  match s.events.foldl (fun acc e =>
      if e.time ≤ now then
        match acc with
        | none => some e
        | some a => if a.time ≤ e.time then some e else some a
      else acc) none with
  | none => s.initialValue
  | some e => e.value

/-- Modelled from the spec: the nested per-voice configuration of an
abstract voice instrument; only the options the claims observe are kept. -/
structure VoiceOptions where
  volume : ℚ
  portamento : ℚ
deriving DecidableEq, Repr

/-- Modelled from the spec: an abstract voice instrument (Tone.MonoSynth is
not under src). Only the state the claims observe is kept: the output
volume and the per-voice portamento. -/
structure Voice where
  volume : ℚ
  portamento : ℚ
deriving DecidableEq, Repr

/-- Modelled from the spec: constructing a voice from its nested
configuration adopts the configured volume and portamento. -/
def monoSynthCreate (o : VoiceOptions) : Voice :=
  ⟨o.volume, o.portamento⟩

/-- Nodes of the automation and audio graph wired by the DuoSynth
constructor. -/
inductive NodeId where
  | frequencyNode
  | harmonicityNode
  | voice0Frequency
  | voice1Frequency
  | vibratoNode
  | vibratoGainNode
  | voice0Detune
  | voice1Detune
  | voice0Output
  | voice1Output
  | outputNode
deriving DecidableEq, Repr

/-- Modelled from the spec: the kind of a graph node. A source outputs an
externally supplied time function, a multiply stage scales its summed
input by a factor, a gain stage scales by its gain, and a param is a
driven scalar parameter that sums its incoming drives. -/
inductive NodeKind where
  | source
  | multiply (factor : ℚ)
  | gain (amount : ℚ)
  | param
deriving DecidableEq, Repr

/-- Modelled from the spec: evaluation of the signal graph at an instant.
The environment gives each source node its output as a function of time;
fuel bounds the traversal depth of the acyclic graph. -/
def nodeOut (kinds : NodeId → NodeKind) (edges : List (NodeId × NodeId))
    (env : NodeId → ℚ → ℚ) : Nat → NodeId → ℚ → ℚ
  | 0, _, _ => 0
  | fuel + 1, n, t =>
    match kinds n with
    | NodeKind.source => env n t
    | NodeKind.multiply factor =>
        (((edges.filter fun e => e.2 == n).map fun e =>
          nodeOut kinds edges env fuel e.1 t).sum) * factor
    | NodeKind.gain amount =>
        (((edges.filter fun e => e.2 == n).map fun e =>
          nodeOut kinds edges env fuel e.1 t).sum) * amount
    | NodeKind.param =>
        ((edges.filter fun e => e.2 == n).map fun e =>
          nodeOut kinds edges env fuel e.1 t).sum

/-- The two voices of a DuoSynth. -/
inductive VoiceId where
  | voice0
  | voice1
deriving DecidableEq, Repr

/-- One observable scheduling instruction issued to an external
collaborator: a point scheduled on the shared frequency parameter, an
envelope or filter-envelope attack forwarded to a voice (the
filter-envelope attack carries no velocity argument, mirroring the call
made with the time only), or a release forwarded to a voice. -/
inductive Action where
  | setValueAtTime (value : ℚ) (time : ℚ)
  | exponentialRampToValueAtTime (value : ℚ) (time : ℚ)
  | envelopeAttack (voice : VoiceId) (time : ℚ) (velocity : Option ℚ)
  | filterEnvelopeAttack (voice : VoiceId) (time : ℚ)
  | voiceRelease (voice : VoiceId) (time : Option ℚ)
deriving DecidableEq, Repr

/-- The constructor options of Tone.DuoSynth, together with the
portamento option that Tone.Monophonic adds to the defaults. -/
structure DuoSynthOptions where
  vibratoAmount : ℚ
  vibratoRate : ℚ
  vibratoDelay : ℚ
  harmonicity : ℚ
  portamento : ℚ
  voice0 : VoiceOptions
  voice1 : VoiceOptions
deriving DecidableEq, Repr

/-- State of a DuoSynth instance. References that dispose clears to null
are Option valued, none modelling a null reference: voice0, voice1, the
shared frequency signal, the harmonicity factor, vibratoAmount,
vibratoRate, and the volume owned by the Instrument base layer.
vibratoDelaySeconds is the private parsed field that nothing reads.
connections is the graph wired at construction and log is the trace of
scheduling instructions issued so far. -/
structure DuoSynth where
  portamento : ℚ
  volume : Option ℚ
  voice0 : Option Voice
  voice1 : Option Voice
  vibratoRate : Option ℚ
  vibratoAmount : Option ℚ
  vibratoDelaySeconds : ℚ
  frequency : Option Signal
  harmonicity : Option ℚ
  connections : List (NodeId × NodeId)
  log : List Action
deriving DecidableEq, Repr

/-- The default options of Tone.DuoSynth (volume and portamento of each
voice from DuoSynth.defaults; top-level portamento 0 from
Tone.Monophonic.defaults). -/
def DuoSynth.defaults : DuoSynthOptions :=
  { vibratoAmount := 1/2
    vibratoRate := 5
    vibratoDelay := 1
    harmonicity := 3/2
    portamento := 0
    voice0 := ⟨-10, 0⟩
    voice1 := ⟨-10, 0⟩ }

/-- The Tone.DuoSynth constructor. Each voice is built from its nested
configuration and its volume is then assigned -10; the Instrument base
layer owns a volume signal starting at 0 decibels; the vibrato delay
option is resolved to seconds and stored in a private field; the shared
frequency signal starts at 440; the constructor wires the graph:
frequency drives the voice0 frequency directly, frequency chains through
the harmonicity multiply stage into the voice1 frequency, the vibrato
source drives the vibrato gain which fans out to both voice detune
inputs, and both voice outputs are connected to the shared output. -/
def DuoSynth.create (options : DuoSynthOptions) : DuoSynth :=
  let v0 := monoSynthCreate options.voice0
  let v0 := { v0 with volume := -10 }
  let v1 := monoSynthCreate options.voice1
  let v1 := { v1 with volume := -10 }
  { portamento := options.portamento
    volume := some 0
    voice0 := some v0
    voice1 := some v1
    vibratoRate := some options.vibratoRate
    vibratoAmount := some options.vibratoAmount
    vibratoDelaySeconds := toSeconds 0 (some options.vibratoDelay)
    frequency := some ⟨440, []⟩
    harmonicity := some options.harmonicity
    connections :=
      [ (NodeId.frequencyNode, NodeId.voice0Frequency),
        (NodeId.frequencyNode, NodeId.harmonicityNode),
        (NodeId.harmonicityNode, NodeId.voice1Frequency),
        (NodeId.vibratoNode, NodeId.vibratoGainNode),
        (NodeId.vibratoGainNode, NodeId.voice0Detune),
        (NodeId.vibratoGainNode, NodeId.voice1Detune),
        (NodeId.voice0Output, NodeId.outputNode),
        (NodeId.voice1Output, NodeId.outputNode) ]
    log := [] }

/-- Node kinds of the DuoSynth graph: the shared frequency signal, the
vibrato source and the voice audio outputs are sources; the harmonicity
stage multiplies by the current harmonicity factor; the vibrato gain
scales by the current vibrato amount; every other node is a driven
parameter. -/
def DuoSynth.nodeKinds (s : DuoSynth) : NodeId → NodeKind
  | NodeId.frequencyNode => NodeKind.source
  | NodeId.vibratoNode => NodeKind.source
  | NodeId.voice0Output => NodeKind.source
  | NodeId.voice1Output => NodeKind.source
  | NodeId.harmonicityNode => NodeKind.multiply (s.harmonicity.getD 0)
  | NodeId.vibratoGainNode => NodeKind.gain (s.vibratoAmount.getD 0)
  | _ => NodeKind.param

/-- The pitch driving a voice: the value arriving at the frequency
input of that voice through the wired graph, for a given behaviour of the
source nodes. -/
def DuoSynth.voicePitch (s : DuoSynth) (env : NodeId → ℚ → ℚ)
    (v : VoiceId) (t : ℚ) : ℚ :=
  nodeOut s.nodeKinds s.connections env 4
    (match v with
     | VoiceId.voice0 => NodeId.voice0Frequency
     | VoiceId.voice1 => NodeId.voice1Frequency) t

/-- Tone.Monophonic.prototype.setNote: resolve the time; if portamento is
positive, read the current value of the frequency parameter, schedule a
set point pinning it at the resolved time, and schedule an exponential
ramp to the note landing at the resolved time plus the portamento
(toSeconds of the numeric portamento is the identity); otherwise schedule
a single discrete set of the frequency to the note at the resolved time.
Returns none when the frequency reference is null. -/
def DuoSynth.setNote (s : DuoSynth) (note : ℚ) (time : Option ℚ)
    (now : ℚ) : Option DuoSynth :=
  match s.frequency with
  | none => none
  | some freq =>
    let t := toSeconds now time
    if 0 < s.portamento then
      let currentNote := freq.getValue now
      let portTime := s.portamento
      some { s with
        frequency := some ((freq.setValueAtTime currentNote t).exponentialRampToValueAtTime
          note (t + portTime))
        log := s.log ++
          [ Action.setValueAtTime currentNote t,
            Action.exponentialRampToValueAtTime note (t + portTime) ] }
    else
      some { s with
        frequency := some (freq.setValueAtTime note t)
        log := s.log ++ [Action.setValueAtTime note t] }

/-- Tone.DuoSynth.prototype._triggerEnvelopeAttack: resolve the time,
forward the resolved time and the velocity to the primary envelope attack
of both voices, and forward the resolved time alone to the
filter-envelope attack of both voices. Returns none when a voice
reference is null. -/
def DuoSynth.triggerEnvelopeAttack (s : DuoSynth) (time : Option ℚ)
    (velocity : Option ℚ) (now : ℚ) : Option DuoSynth :=
  match s.voice0, s.voice1 with
  | some _, some _ =>
    let t := toSeconds now time
    some { s with log := s.log ++
      [ Action.envelopeAttack VoiceId.voice0 t velocity,
        Action.envelopeAttack VoiceId.voice1 t velocity,
        Action.filterEnvelopeAttack VoiceId.voice0 t,
        Action.filterEnvelopeAttack VoiceId.voice1 t ] }
  | _, _ => none

/-- Tone.DuoSynth.prototype._triggerEnvelopeRelease: forward the release,
with the time passed through unresolved, to both voices. Returns none
when a voice reference is null. -/
def DuoSynth.triggerEnvelopeRelease (s : DuoSynth) (time : Option ℚ) :
    Option DuoSynth :=
  match s.voice0, s.voice1 with
  | some _, some _ =>
    some { s with log := s.log ++
      [ Action.voiceRelease VoiceId.voice0 time,
        Action.voiceRelease VoiceId.voice1 time ] }
  | _, _ => none

/-- Tone.Monophonic.prototype.triggerAttack: resolve the time, invoke the
envelope-attack hook with the resolved time and the velocity, then call
setNote with the note and the resolved time. The updated state is the
returned instance. -/
def DuoSynth.triggerAttack (s : DuoSynth) (note : ℚ) (time : Option ℚ)
    (velocity : Option ℚ) (now : ℚ) : Option DuoSynth :=
  let t := toSeconds now time
  (s.triggerEnvelopeAttack (some t) velocity now).bind fun s1 =>
    s1.setNote note (some t) now

/-- Tone.Monophonic.prototype.triggerRelease: invoke the envelope-release
hook with the time as given, and return the instance. -/
def DuoSynth.triggerRelease (s : DuoSynth) (time : Option ℚ) :
    Option DuoSynth :=
  s.triggerEnvelopeRelease time

/-- Tone.Instrument.prototype.triggerAttackRelease: resolve the time and
the duration to absolute seconds, call triggerAttack with the note, the
resolved time and the velocity, then call triggerRelease at the resolved
time plus the resolved duration. -/
def DuoSynth.triggerAttackRelease (s : DuoSynth) (note : ℚ)
    (duration : Option ℚ) (time : Option ℚ) (velocity : Option ℚ)
    (now : ℚ) : Option DuoSynth :=
  let t := toSeconds now time
  let d := toSeconds now duration
  (s.triggerAttack note (some t) velocity now).bind fun s1 =>
    s1.triggerRelease (some (t + d))

/-- Tone.DuoSynth.prototype.dispose, including the Tone.Instrument
dispose it delegates to: every owned collaborator is disposed or
disconnected and every owned reference is cleared to null; the wired
graph is torn down. The private parsed vibrato delay field is not
cleared. Returns none when a reference is already null, since the source
would dereference null. -/
def DuoSynth.dispose (s : DuoSynth) : Option DuoSynth :=
  match s.volume, s.voice0, s.voice1, s.frequency, s.harmonicity,
      s.vibratoAmount, s.vibratoRate with
  | some _, some _, some _, some _, some _, some _, some _ =>
    some { s with
      volume := none
      voice0 := none
      voice1 := none
      frequency := none
      harmonicity := none
      vibratoAmount := none
      vibratoRate := none
      connections := [] }
  | _, _, _, _, _, _, _ => none


/-- Commands of the public operation surface, used to state that the
vibrato delay option never influences observable behaviour. -/
inductive Cmd where
  | triggerAttack (note : ℚ) (time : Option ℚ) (velocity : Option ℚ) (now : ℚ)
  | triggerRelease (time : Option ℚ)
  | triggerAttackRelease (note : ℚ) (duration : Option ℚ) (time : Option ℚ)
      (velocity : Option ℚ) (now : ℚ)
  | setNote (note : ℚ) (time : Option ℚ) (now : ℚ)
  | dispose
deriving DecidableEq, Repr

/-- Run one public operation. -/
def runCmd (c : Cmd) (s : DuoSynth) : Option DuoSynth :=
  match c with
  | Cmd.triggerAttack note time velocity now => s.triggerAttack note time velocity now
  | Cmd.triggerRelease time => s.triggerRelease time
  | Cmd.triggerAttackRelease note duration time velocity now =>
      s.triggerAttackRelease note duration time velocity now
  | Cmd.setNote note time now => s.setNote note time now
  | Cmd.dispose => s.dispose

/-- Run a sequence of public operations. -/
def runCmds : List Cmd → DuoSynth → Option DuoSynth
  | [], s => some s
  | c :: cs, s => (runCmd c s).bind (runCmds cs)

/-- Observable view of a DuoSynth state: everything except the private
parsed vibrato delay field. -/
def DuoSynth.eraseVibratoDelay (s : DuoSynth) : DuoSynth :=
  { s with vibratoDelaySeconds := 0 }

/-- The state obtained by disposing a freshly constructed default
instance. -/
def disposedDefault : DuoSynth :=
  { portamento := 0
    volume := none
    voice0 := none
    voice1 := none
    vibratoRate := none
    vibratoAmount := none
    vibratoDelaySeconds := 1
    frequency := none
    harmonicity := none
    connections := []
    log := [] }

lemma setNote_erase (s : DuoSynth) (note : ℚ) (time : Option ℚ) (now : ℚ) :
    s.eraseVibratoDelay.setNote note time now
      = (s.setNote note time now).map DuoSynth.eraseVibratoDelay := by
  cases hf : s.frequency with
  | none => simp [DuoSynth.setNote, DuoSynth.eraseVibratoDelay, hf]
  | some freq =>
    simp [DuoSynth.setNote, DuoSynth.eraseVibratoDelay, hf]
    split <;> rfl

lemma triggerEnvelopeAttack_erase (s : DuoSynth) (time : Option ℚ)
    (velocity : Option ℚ) (now : ℚ) :
    s.eraseVibratoDelay.triggerEnvelopeAttack time velocity now
      = (s.triggerEnvelopeAttack time velocity now).map DuoSynth.eraseVibratoDelay := by
  cases h0 : s.voice0 <;> cases h1 : s.voice1 <;>
    simp [DuoSynth.triggerEnvelopeAttack, DuoSynth.eraseVibratoDelay, h0, h1]

lemma triggerEnvelopeRelease_erase (s : DuoSynth) (time : Option ℚ) :
    s.eraseVibratoDelay.triggerEnvelopeRelease time
      = (s.triggerEnvelopeRelease time).map DuoSynth.eraseVibratoDelay := by
  cases h0 : s.voice0 <;> cases h1 : s.voice1 <;>
    simp [DuoSynth.triggerEnvelopeRelease, DuoSynth.eraseVibratoDelay, h0, h1]

lemma triggerAttack_erase (s : DuoSynth) (note : ℚ) (time : Option ℚ)
    (velocity : Option ℚ) (now : ℚ) :
    s.eraseVibratoDelay.triggerAttack note time velocity now
      = (s.triggerAttack note time velocity now).map DuoSynth.eraseVibratoDelay := by
  simp only [DuoSynth.triggerAttack]
  rw [triggerEnvelopeAttack_erase]
  cases s.triggerEnvelopeAttack (some (toSeconds now time)) velocity now with
  | none => rfl
  | some s1 => simpa using setNote_erase s1 note (some (toSeconds now time)) now

lemma triggerRelease_erase (s : DuoSynth) (time : Option ℚ) :
    s.eraseVibratoDelay.triggerRelease time
      = (s.triggerRelease time).map DuoSynth.eraseVibratoDelay :=
  triggerEnvelopeRelease_erase s time

lemma triggerAttackRelease_erase (s : DuoSynth) (note : ℚ)
    (duration : Option ℚ) (time : Option ℚ) (velocity : Option ℚ) (now : ℚ) :
    s.eraseVibratoDelay.triggerAttackRelease note duration time velocity now
      = (s.triggerAttackRelease note duration time velocity now).map
          DuoSynth.eraseVibratoDelay := by
  simp only [DuoSynth.triggerAttackRelease]
  rw [triggerAttack_erase]
  cases s.triggerAttack note (some (toSeconds now time)) velocity now with
  | none => rfl
  | some s1 => simpa using triggerRelease_erase s1 (some (toSeconds now time + toSeconds now duration))

lemma dispose_erase (s : DuoSynth) :
    s.eraseVibratoDelay.dispose = s.dispose.map DuoSynth.eraseVibratoDelay := by
  cases h1 : s.volume <;> cases h2 : s.voice0 <;> cases h3 : s.voice1 <;>
    cases h4 : s.frequency <;> cases h5 : s.harmonicity <;>
    cases h6 : s.vibratoAmount <;> cases h7 : s.vibratoRate <;>
    simp [DuoSynth.dispose, DuoSynth.eraseVibratoDelay, h1, h2, h3, h4, h5, h6, h7]

lemma runCmd_erase (c : Cmd) (s : DuoSynth) :
    runCmd c s.eraseVibratoDelay = (runCmd c s).map DuoSynth.eraseVibratoDelay := by
  cases c with
  | triggerAttack note time velocity now => exact triggerAttack_erase s note time velocity now
  | triggerRelease time => exact triggerRelease_erase s time
  | triggerAttackRelease note duration time velocity now =>
      exact triggerAttackRelease_erase s note duration time velocity now
  | setNote note time now => exact setNote_erase s note time now
  | dispose => exact dispose_erase s

lemma runCmds_erase_congr :
    ∀ (cmds : List Cmd) (s1 s2 : DuoSynth),
      s1.eraseVibratoDelay = s2.eraseVibratoDelay →
      (runCmds cmds s1).map DuoSynth.eraseVibratoDelay
        = (runCmds cmds s2).map DuoSynth.eraseVibratoDelay := by
  intro cmds
  induction cmds with
  | nil => intro s1 s2 h; simpa [runCmds] using h
  | cons c cs ih =>
    intro s1 s2 h
    have hc : (runCmd c s1).map DuoSynth.eraseVibratoDelay
        = (runCmd c s2).map DuoSynth.eraseVibratoDelay := by
      rw [← runCmd_erase, ← runCmd_erase, h]
    simp only [runCmds]
    cases hx : runCmd c s1 with
    | none =>
      cases hy : runCmd c s2 with
      | none => rfl
      | some t2 => rw [hx, hy] at hc; simp at hc
    | some t1 =>
      cases hy : runCmd c s2 with
      | none => rw [hx, hy] at hc; simp at hc
      | some t2 =>
        rw [hx, hy] at hc
        simp at hc
        exact ih t1 t2 hc

/-- Claim C9: the vibratoDelay option is parsed into seconds at
construction but has no effect on behaviour: two instances whose
configurations differ only in vibratoDelay produce, under every sequence
of public operations, identical scheduling instructions and identical
observable state (everything except the private parsed delay field). -/
theorem vibratoDelay_unobservable (opts : DuoSynthOptions) (d1 d2 : ℚ)
    (cmds : List Cmd) :
    (runCmds cmds (DuoSynth.create { opts with vibratoDelay := d1 })).map
        DuoSynth.eraseVibratoDelay
      = (runCmds cmds (DuoSynth.create { opts with vibratoDelay := d2 })).map
          DuoSynth.eraseVibratoDelay := by
  apply runCmds_erase_congr
  rfl


/-- Claim C1: for every DuoSynth instance after construction, the pitch
driving voice1 equals the pitch driving voice0 multiplied by the
harmonicity ratio, at every instant and for every behaviour of the
shared frequency source: the shared frequency drives the voice0 pitch
input directly and drives the voice1 pitch input through the
multiply-by-harmonicity stage. -/
theorem voice1_pitch_eq_voice0_pitch_mul_harmonicity
    (opts : DuoSynthOptions) (env : NodeId → ℚ → ℚ) (t : ℚ) :
    (DuoSynth.create opts).voicePitch env VoiceId.voice1 t
      = (DuoSynth.create opts).voicePitch env VoiceId.voice0 t * opts.harmonicity := by
  simp [DuoSynth.voicePitch, DuoSynth.create, DuoSynth.nodeKinds, nodeOut]

/-- Claim C2: setNote follows the two-branch pitch scheduling policy.
With positive portamento it first schedules a set point pinning the
current value of the frequency parameter at the resolved time and then
schedules an exponential (not linear) ramp to the note landing exactly at
the resolved time plus the portamento; with portamento zero it schedules
a single discrete set of the frequency to the note at the resolved time
and nothing else. -/
theorem setNote_two_branch_policy (s : DuoSynth) (freq : Signal)
    (note : ℚ) (time : Option ℚ) (now : ℚ) (hf : s.frequency = some freq) :
    (0 < s.portamento →
      s.setNote note time now = some { s with
        frequency := some ⟨freq.initialValue, freq.events ++
          [ AutomationEvent.setValueAtTime (freq.getValue now) (toSeconds now time),
            AutomationEvent.exponentialRampToValueAtTime note
              (toSeconds now time + s.portamento) ]⟩
        log := s.log ++
          [ Action.setValueAtTime (freq.getValue now) (toSeconds now time),
            Action.exponentialRampToValueAtTime note
              (toSeconds now time + s.portamento) ] })
    ∧ (s.portamento = 0 →
      s.setNote note time now = some { s with
        frequency := some ⟨freq.initialValue, freq.events ++
          [AutomationEvent.setValueAtTime note (toSeconds now time)]⟩
        log := s.log ++ [Action.setValueAtTime note (toSeconds now time)] }) := by
  constructor
  · intro hp
    simp [DuoSynth.setNote, hf, hp, Signal.setValueAtTime,
      Signal.exponentialRampToValueAtTime]
  · intro hp
    simp [DuoSynth.setNote, hf, hp, Signal.setValueAtTime]

/-- Witness for C2: both branches of the policy evaluated on concrete
instances, a glide from the initial 440 to 660 over one second of
portamento scheduled at time 2, and a discrete set with the default zero
portamento. -/
theorem setNote_two_branch_policy_witness :
    ((DuoSynth.create { DuoSynth.defaults with portamento := 1 }).setNote 660 (some 2) 0
      = some { DuoSynth.create { DuoSynth.defaults with portamento := 1 } with
          frequency := some ⟨440,
            [ AutomationEvent.setValueAtTime 440 2,
              AutomationEvent.exponentialRampToValueAtTime 660 3 ]⟩
          log := [ Action.setValueAtTime 440 2,
                   Action.exponentialRampToValueAtTime 660 3 ] })
    ∧ ((DuoSynth.create DuoSynth.defaults).setNote 660 (some 2) 0
      = some { DuoSynth.create DuoSynth.defaults with
          frequency := some ⟨440, [AutomationEvent.setValueAtTime 660 2]⟩
          log := [Action.setValueAtTime 660 2] }) := by
  constructor
  · have h := (setNote_two_branch_policy
        (DuoSynth.create { DuoSynth.defaults with portamento := 1 })
        ⟨440, []⟩ 660 (some 2) 0 rfl).1 (by norm_num [DuoSynth.create])
    rw [h]
    norm_num [DuoSynth.create, DuoSynth.defaults, Signal.getValue, toSeconds,
      monoSynthCreate]
  · have h := (setNote_two_branch_policy (DuoSynth.create DuoSynth.defaults)
        ⟨440, []⟩ 660 (some 2) 0 rfl).2
        (by norm_num [DuoSynth.create, DuoSynth.defaults])
    rw [h]
    norm_num [DuoSynth.create, DuoSynth.defaults, toSeconds, monoSynthCreate]

/-- Claim C3: triggerAttackRelease first resolves the time and the
duration to absolute seconds and is then observationally equivalent to
triggerAttack with the note, the resolved time and the velocity followed
by triggerRelease at the resolved time plus the resolved duration,
returning the (updated) instance. -/
theorem triggerAttackRelease_decomposes (s : DuoSynth) (note : ℚ)
    (duration : Option ℚ) (time : Option ℚ) (velocity : Option ℚ) (now : ℚ) :
    s.triggerAttackRelease note duration time velocity now
      = (s.triggerAttack note (some (toSeconds now time)) velocity now).bind
          fun s1 => s1.triggerRelease
            (some (toSeconds now time + toSeconds now duration)) := rfl

/-- Claim C6: triggerAttack resolves the time, invokes the
envelope-attack hook with the resolved time and the velocity, and then
calls setNote with the note and the resolved time, the updated instance
being returned. -/
theorem triggerAttack_hook_then_setNote (s : DuoSynth) (note : ℚ)
    (time : Option ℚ) (velocity : Option ℚ) (now : ℚ) :
    s.triggerAttack note time velocity now
      = (s.triggerEnvelopeAttack (some (toSeconds now time)) velocity now).bind
          fun s1 => s1.setNote note (some (toSeconds now time)) now := rfl

/-- Claim C7: the DuoSynth envelope-attack hook forwards the resolved
time and the velocity to the primary envelope attack of both voices and
forwards the resolved time alone, without the velocity argument, to the
filter-envelope attack of both voices, in that order. -/
theorem triggerEnvelopeAttack_forwarding (s : DuoSynth) (v0 v1 : Voice)
    (time : Option ℚ) (velocity : Option ℚ) (now : ℚ)
    (h0 : s.voice0 = some v0) (h1 : s.voice1 = some v1) :
    s.triggerEnvelopeAttack time velocity now = some { s with log := s.log ++
      [ Action.envelopeAttack VoiceId.voice0 (toSeconds now time) velocity,
        Action.envelopeAttack VoiceId.voice1 (toSeconds now time) velocity,
        Action.filterEnvelopeAttack VoiceId.voice0 (toSeconds now time),
        Action.filterEnvelopeAttack VoiceId.voice1 (toSeconds now time) ] } := by
  simp [DuoSynth.triggerEnvelopeAttack, h0, h1]

/-- Witness for C7: the hook evaluated on a freshly constructed instance
at time 1 with velocity one half. -/
theorem triggerEnvelopeAttack_forwarding_witness :
    (DuoSynth.create DuoSynth.defaults).triggerEnvelopeAttack (some 1) (some (1/2)) 0
      = some { DuoSynth.create DuoSynth.defaults with log :=
          [ Action.envelopeAttack VoiceId.voice0 1 (some (1/2)),
            Action.envelopeAttack VoiceId.voice1 1 (some (1/2)),
            Action.filterEnvelopeAttack VoiceId.voice0 1,
            Action.filterEnvelopeAttack VoiceId.voice1 1 ] } := by
  have h := triggerEnvelopeAttack_forwarding (DuoSynth.create DuoSynth.defaults)
    ⟨-10, 0⟩ ⟨-10, 0⟩ (some 1) (some (1/2)) 0 rfl rfl
  rw [h]
  norm_num [DuoSynth.create, DuoSynth.defaults, toSeconds, monoSynthCreate]


/-- Amended claim C4: the hold-then-ramp pair scheduled by setNote with
positive portamento does not cancel automation previously scheduled on
the frequency parameter after the hold point; every previously scheduled
point remains on the curve, with the hold point and the exponential ramp
appended after them. -/
theorem setNote_portamento_no_cancellation (s : DuoSynth) (freq : Signal)
    (note : ℚ) (time : Option ℚ) (now : ℚ)
    (hf : s.frequency = some freq) (hp : 0 < s.portamento) :
    ((s.setNote note time now).bind DuoSynth.frequency
      = some ⟨freq.initialValue, freq.events ++
          [ AutomationEvent.setValueAtTime (freq.getValue now) (toSeconds now time),
            AutomationEvent.exponentialRampToValueAtTime note
              (toSeconds now time + s.portamento) ]⟩)
    ∧ ∀ e ∈ freq.events, e ∈ freq.events ++
        [ AutomationEvent.setValueAtTime (freq.getValue now) (toSeconds now time),
          AutomationEvent.exponentialRampToValueAtTime note
            (toSeconds now time + s.portamento) ] := by
  constructor
  · simp [DuoSynth.setNote, hf, hp, Signal.setValueAtTime,
      Signal.exponentialRampToValueAtTime]
  · intro e he
    exact List.mem_append_left _ he

/-- Witness for the amended C4: a first glide on a fresh instance leaves
the empty prior curve in place and appends the hold point and the
exponential ramp. -/
theorem setNote_portamento_no_cancellation_witness :
    (((DuoSynth.create { DuoSynth.defaults with portamento := 1 }).setNote 660
        (some 2) 0).bind DuoSynth.frequency)
      = some ⟨440, [ AutomationEvent.setValueAtTime 440 2,
                     AutomationEvent.exponentialRampToValueAtTime 660 3 ]⟩ := by
  have h := (setNote_portamento_no_cancellation
      (DuoSynth.create { DuoSynth.defaults with portamento := 1 })
      ⟨440, []⟩ 660 (some 2) 0 rfl (by norm_num [DuoSynth.create])).1
  rw [h]
  norm_num [Signal.getValue, toSeconds, DuoSynth.create, monoSynthCreate]

/-- Counterexample to claim C4 as stated: on an instance with portamento
one, a first call schedules points at times 5 and 6; a second call with
hold point at time 0 leaves both earlier points, whose timestamps lie
after the hold point, on the curve instead of cancelling them. -/
theorem setNote_cancels_after_hold_cex :
    ((((DuoSynth.create { DuoSynth.defaults with portamento := 1 }).setNote 100
          (some 5) 0).bind fun s1 => s1.setNote 220 (some 0) 0).bind
        DuoSynth.frequency)
      = some ⟨440, [ AutomationEvent.setValueAtTime 440 5,
                     AutomationEvent.exponentialRampToValueAtTime 100 6,
                     AutomationEvent.setValueAtTime 440 0,
                     AutomationEvent.exponentialRampToValueAtTime 220 1 ]⟩
    ∧ AutomationEvent.setValueAtTime 440 5 ∈
        [ AutomationEvent.setValueAtTime 440 5,
          AutomationEvent.exponentialRampToValueAtTime 100 6,
          AutomationEvent.setValueAtTime 440 0,
          AutomationEvent.exponentialRampToValueAtTime 220 1 ]
    ∧ (0 : ℚ) < 5 := by
  refine ⟨?_, ?_, by norm_num⟩
  · norm_num [DuoSynth.create, DuoSynth.defaults, DuoSynth.setNote,
      Signal.getValue, Signal.setValueAtTime, Signal.exponentialRampToValueAtTime,
      toSeconds, AutomationEvent.time, AutomationEvent.value, monoSynthCreate]
  · simp

/-- Amended claim C5: each voice is attenuated to -10 after construction,
and this is forced: the constructor assigns -10 to each voice volume
after applying the caller configuration, so a caller-supplied per-voice
volume is overwritten and the voice volume is always -10. -/
theorem voice_volume_forced_minus_ten (opts : DuoSynthOptions) :
    ((DuoSynth.create opts).voice0).map Voice.volume = some (-10)
    ∧ ((DuoSynth.create opts).voice1).map Voice.volume = some (-10) := by
  constructor <;> simp [DuoSynth.create, monoSynthCreate]

/-- Counterexample to claim C5 as stated: constructing with a voice0
volume of -20 yields a voice0 volume of -10, not the caller-supplied
value. -/
theorem voice_volume_override_cex :
    (((DuoSynth.create { DuoSynth.defaults with voice0 := ⟨-20, 0⟩ }).voice0).map
        Voice.volume = some (-10))
    ∧ ((-10 : ℚ) ≠ -20) := by
  constructor
  · simp [DuoSynth.create, monoSynthCreate]
  · norm_num

/-- Claim C8: after dispose returns successfully, every externally
exposed owned reference (voice0, voice1, frequency, vibratoAmount,
vibratoRate, and the base-layer volume) is cleared to null, and every
further operation on the instance fails detectably by returning none
instead of silently succeeding. -/
theorem dispose_clears_references (s s2 : DuoSynth) (h : s.dispose = some s2) :
    s2.voice0 = none ∧ s2.voice1 = none ∧ s2.frequency = none
    ∧ s2.vibratoAmount = none ∧ s2.vibratoRate = none ∧ s2.volume = none
    ∧ (∀ note time velocity now, s2.triggerAttack note time velocity now = none)
    ∧ (∀ time, s2.triggerRelease time = none)
    ∧ (∀ note duration time velocity now,
        s2.triggerAttackRelease note duration time velocity now = none)
    ∧ (∀ note time now, s2.setNote note time now = none)
    ∧ s2.dispose = none := by
  unfold DuoSynth.dispose at h
  split at h
  · injection h with h2
    subst h2
    exact ⟨rfl, rfl, rfl, rfl, rfl, rfl, fun _ _ _ _ => rfl, fun _ => rfl,
      fun _ _ _ _ _ => rfl, fun _ _ _ => rfl, rfl⟩
  · exact Option.noConfusion h

/-- Witness for C8: disposing a default instance clears every exposed
reference and makes each operation return none. -/
theorem dispose_clears_references_witness :
    disposedDefault.voice0 = none ∧ disposedDefault.voice1 = none
    ∧ disposedDefault.frequency = none ∧ disposedDefault.vibratoAmount = none
    ∧ disposedDefault.vibratoRate = none ∧ disposedDefault.volume = none
    ∧ disposedDefault.triggerAttack 660 (some 1) (some 1) 0 = none
    ∧ disposedDefault.triggerRelease (some 2) = none
    ∧ disposedDefault.triggerAttackRelease 660 (some 1) (some 0) (some 1) 0 = none
    ∧ disposedDefault.setNote 660 (some 1) 0 = none
    ∧ disposedDefault.dispose = none := by
  obtain ⟨h1, h2, h3, h4, h5, h6, h7, h8, h9, h10, h11⟩ :=
    dispose_clears_references (DuoSynth.create DuoSynth.defaults) disposedDefault rfl
  exact ⟨h1, h2, h3, h4, h5, h6, h7 660 (some 1) (some 1) 0, h8 (some 2),
    h9 660 (some 1) (some 0) (some 1) 0, h10 660 (some 1) 0, h11⟩

/-- Claim C10: immediately after construction the shared frequency
parameter has value 440 and an empty curve, so on an instance configured
with positive portamento the very first setNote pins 440 as the hold
value and starts its exponential glide from there, whatever note is
requested first. -/
theorem initial_frequency_440_first_glide (opts : DuoSynthOptions)
    (note : ℚ) (time : Option ℚ) (now : ℚ) (hp : 0 < opts.portamento) :
    (DuoSynth.create opts).frequency = some ⟨440, []⟩
    ∧ (DuoSynth.create opts).setNote note time now
        = some { DuoSynth.create opts with
            frequency := some ⟨440,
              [ AutomationEvent.setValueAtTime 440 (toSeconds now time),
                AutomationEvent.exponentialRampToValueAtTime note
                  (toSeconds now time + opts.portamento) ]⟩
            log := [ Action.setValueAtTime 440 (toSeconds now time),
                     Action.exponentialRampToValueAtTime note
                       (toSeconds now time + opts.portamento) ] } := by
  refine ⟨rfl, ?_⟩
  simp [DuoSynth.setNote, DuoSynth.create, hp, Signal.getValue,
    Signal.setValueAtTime, Signal.exponentialRampToValueAtTime, monoSynthCreate]

/-- Witness for C10: with portamento one, the first setNote on a fresh
default-configured instance pins 440 at time 3 and glides exponentially
to 550 by time 4. -/
theorem initial_frequency_440_first_glide_witness :
    (DuoSynth.create { DuoSynth.defaults with portamento := 1 }).frequency
      = some ⟨440, []⟩
    ∧ (DuoSynth.create { DuoSynth.defaults with portamento := 1 }).setNote 550
        (some 3) 0
      = some { DuoSynth.create { DuoSynth.defaults with portamento := 1 } with
          frequency := some ⟨440,
            [ AutomationEvent.setValueAtTime 440 3,
              AutomationEvent.exponentialRampToValueAtTime 550 4 ]⟩
          log := [ Action.setValueAtTime 440 3,
                   Action.exponentialRampToValueAtTime 550 4 ] } := by
  have h := initial_frequency_440_first_glide
    { DuoSynth.defaults with portamento := 1 } 550 (some 3) 0
    (by norm_num)
  refine ⟨h.1, ?_⟩
  rw [h.2]
  norm_num [toSeconds, DuoSynth.create, DuoSynth.defaults, monoSynthCreate]

end Tone
